import Mathlib

/-!
Verification of the Sora video-generation backend (main.py): the JSON
payload built for the upstream create call, the API-key configuration
check, the completion-polling and download loop, and the video-serving
endpoint, modelled as pure functions over explicit environments.

Time is modelled in rational seconds.  The poll loop of
wait_for_video_completion is driven by an upstream environment giving,
for each poll index, the HTTP code, the status string, the optional
error message, and the wall-clock time the request itself consumes; the
loop carries a fuel parameter for termination, with the wall-clock
budget check performed before fuel is consumed, so that fuel exhaustion
is distinguishable from the 408 timeout of the source.
-/

/-- Supported resolutions, from the comment on VideoRequest.size in main.py. -/
def supportedSizes : List String := ["720x1280", "1280x720", "1024x1792", "1792x1024"]

/-- Supported durations in seconds, from the comment on VideoRequest.duration. -/
def supportedDurations : List Int := [4, 8, 12]

/-- Inbound request body of POST /api/generate-video (class VideoRequest). -/
structure VideoRequest where
  prompt : String
  model : String := "sora-2"
  size : String := "720x1280"
  duration : Int := 8
  deriving DecidableEq

/-- Response body of POST /api/generate-video (class VideoResponse). -/
structure VideoResponse where
  video_url : String
  status : String
  message : String
  deriving DecidableEq

/-- JSON payload built by generate_video (main.py lines 140-149): model,
prompt and size always; the key "seconds" is added only when
request.duration is truthy, which for a Python int means nonzero, with
the value coerced by str(). -/
def buildPayload (r : VideoRequest) : List (String × String) :=
  let base := [("model", r.model), ("prompt", r.prompt), ("size", r.size)]
  if r.duration ≠ 0 then base ++ [("seconds", toString r.duration)] else base

/-- Configuration: OPENAI_API_KEY as read by os.getenv at startup, which
yields None when the variable is unset. -/
structure AppConfig where
  apiKey : Option String

/-- Truthiness of OPENAI_API_KEY as tested by the guard at main.py line 129:
false for None and for the empty string. -/
def keyConfigured (c : AppConfig) : Bool :=
  match c.apiKey with
  | none => false
  | some s => s != ""

/-- A model filesystem: regular files as a map from paths (component lists
relative to the working directory) to byte lists, plus a directory
predicate.  The working directory itself is the empty path. -/
structure FS where
  files : List String → Option (List Nat)
  dirs : List String → Bool

/-- Existence as tested by Path.exists at main.py line 227: true for
regular files and for directories alike. -/
def pathExists (fs : FS) (p : List String) : Bool :=
  (fs.files p).isSome || fs.dirs p

/-- One step of OS path resolution as performed by the stat call behind
Path.exists: a "." or empty component keeps the current directory, ".."
moves up one component (the working directory, the empty list, is the
top), and any other component descends. -/
def resolveComp (acc : List String) (c : String) : List String :=
  if c = "." ∨ c = "" then acc
  else if c = ".." then acc.dropLast
  else acc ++ [c]

/-- Resolution of a relative path against the working directory. -/
def resolvePath (p : List String) : List String := p.foldl resolveComp []

/-- Outcome of the GET /videos/(video_filename) endpoint.  fileResp is a
FileResponse that delivers the bytes of a regular file with the given
media type; respError is a FileResponse whose target path exists but is
not a regular file (for example a directory), which raises when the
response body is sent and surfaces as a server error. -/
inductive ServeResult where
  | notFound
  | fileResp (bytes : List Nat) (mediaType : String)
  | respError
  deriving DecidableEq

/-- The serve_video handler (main.py lines 219-235): joins VIDEOS_DIR with
the filename (a single path component, as the route pattern admits no
slash), checks only Path.exists — not that the target is a regular file,
nor that it lies inside the videos directory — and on existence returns
a FileResponse with media_type "video/mp4". -/
def serve_video (fs : FS) (video_filename : String) : ServeResult :=
  let p := resolvePath ["videos", video_filename]
  if pathExists fs p then
    match fs.files p with
    | some b => ServeResult.fileResp b "video/mp4"
    | none => ServeResult.respError
  else ServeResult.notFound

/-- Events observable in a run of the poll loop: a status poll with its
index, a cooperative sleep recorded with the elapsed time at which it
was issued and its duration, and the content-download request. -/
inductive TraceEv where
  | poll (n : Nat)
  | sleep (t d : ℚ)
  | download
  deriving DecidableEq

/-- Upstream behaviour driving one run of wait_for_video_completion: per
poll index, the HTTP code, the status field, the error.message field,
the raw body text and the time the request takes; plus the HTTP code,
error body and chunk sequence of the content download. -/
structure UpstreamEnv where
  codeAt : Nat → Nat
  statusAt : Nat → String
  errMsgAt : Nat → Option String
  textAt : Nat → String
  latencyAt : Nat → ℚ
  contentCode : Nat
  contentText : String
  chunks : List (List Nat)

/-- Result of wait_for_video_completion: the returned video_filename on
success, an HTTPException with status code and detail otherwise. fuelOut
marks exhaustion of the termination fuel, never a behaviour of the
source. -/
inductive WaitOutcome where
  | ok (video_filename : String)
  | err (code : Nat) (detail : String)
  | fuelOut
  deriving DecidableEq

/-- A complete run of the poll loop: its event trace, outcome, final
filesystem and final elapsed time. -/
structure WaitRun where
  events : List TraceEv
  outcome : WaitOutcome
  fs : FS
  elapsed : ℚ

/-- One step of the chunked download loop (main.py lines 94-97): a chunk is
written and counted only when it is non-empty (truthy). -/
def chunkStep (acc : List Nat × Nat) (c : List Nat) : List Nat × Nat :=
  if c ≠ [] then (acc.1 ++ c, acc.2 + c.length) else acc

/-- The chunked download loop (main.py lines 92-97): returns the file bytes
and the total_bytes counter. -/
def writeChunks (chunks : List (List Nat)) : List Nat × Nat :=
  chunks.foldl chunkStep ([], 0)

/-- Writing a file: open(path, "wb") truncates, so the entry is replaced. -/
def writeFS (fs : FS) (p : List String) (b : List Nat) : FS :=
  { files := fun q => if q = p then some b else fs.files q, dirs := fs.dirs }

/-- Record one pending iteration: its status poll and its sleep, issued at
elapsed time t1 with duration d, in front of the rest r of the run. -/
def recordIter (n : Nat) (t1 d : ℚ) (r : WaitRun) : WaitRun :=
  ⟨TraceEv.poll n :: TraceEv.sleep t1 d :: r.events, r.outcome, r.fs, r.elapsed⟩

/-- The wait_for_video_completion loop (main.py lines 40-119).  Parameters
t and n are the elapsed time and the poll index, 0 at the top-level
call.  Each iteration: while the elapsed time is below max_wait, poll
(the request advancing time by the poll latency); on a non-200 code
raise with that code; on "completed" issue the content download, on 200
write the chunks to VIDEOS_DIR/(video_id).mp4 and return, otherwise
raise with the content code; on "failed" raise 500 with the upstream
error message (defaulting to "Unknown error"); otherwise sleep
min(5, 1 + elapsed/30) seconds, elapsed taken after the poll request,
and loop.  Budget exhaustion raises 408; in the source the while
condition is tested before each iteration, so it is tested here before
consuming fuel, and fuel can run out only below the budget. -/
def wait_for_video_completion (env : UpstreamEnv) (video_id : String) (max_wait : ℚ) :
    Nat → FS → ℚ → Nat → WaitRun
  | 0, fs, t, _ =>
    if t < max_wait then ⟨[], WaitOutcome.fuelOut, fs, t⟩
    else ⟨[], WaitOutcome.err 408 "Video generation timeout", fs, t⟩
  | fuel + 1, fs, t, n =>
    if t < max_wait then
      if env.codeAt n ≠ 200 then
        ⟨[TraceEv.poll n], WaitOutcome.err (env.codeAt n)
          ("Failed to check video status: " ++ env.textAt n), fs, t + env.latencyAt n⟩
      else if env.statusAt n = "completed" then
        if env.contentCode = 200 then
          ⟨[TraceEv.poll n, TraceEv.download], WaitOutcome.ok (video_id ++ ".mp4"),
            writeFS fs ["videos", video_id ++ ".mp4"] (writeChunks env.chunks).1,
            t + env.latencyAt n⟩
        else
          ⟨[TraceEv.poll n, TraceEv.download], WaitOutcome.err env.contentCode
            ("Failed to download video content: " ++ env.contentText), fs,
            t + env.latencyAt n⟩
      else if env.statusAt n = "failed" then
        ⟨[TraceEv.poll n], WaitOutcome.err 500
          ("Video generation failed: " ++ (env.errMsgAt n).getD "Unknown error"), fs,
          t + env.latencyAt n⟩
      else
        recordIter n (t + env.latencyAt n)
          (min 5 (1 + (t + env.latencyAt n) / 30))
          (wait_for_video_completion env video_id max_wait fuel fs
            (t + env.latencyAt n + min 5 (1 + (t + env.latencyAt n) / 30)) (n + 1))
    else ⟨[], WaitOutcome.err 408 "Video generation timeout", fs, t⟩

/-- Upstream response to the create call POST /videos: HTTP code, raw body
text, the error.message field when the body parses as JSON and carries
one, and the id field. -/
structure CreateEnv where
  code : Nat
  text : String
  jsonErrMsg : Option String
  respId : Option String

/-- Error detail extraction of main.py lines 160-165: the error.message of
a parseable JSON body, else the raw text. -/
def errDetailOfCreate (e : CreateEnv) : String := e.jsonErrMsg.getD e.text

/-- Network events of a generate_video call: the upstream create request
with its payload, then the events of the poll loop. -/
inductive GVEvent where
  | create (payload : List (String × String))
  | upstream (e : TraceEv)
  deriving DecidableEq

/-- Outcome of a generate_video call. -/
inductive GenOutcome where
  | ok (resp : VideoResponse)
  | err (code : Nat) (detail : String)
  | fuelOut
  deriving DecidableEq

/-- The generate_video handler (main.py lines 122-206): the API-key guard
runs before any network call; the create call is issued with the built
payload; a non-2xx code fails with the extracted detail; a missing or
falsy (empty) id fails with 500; otherwise the poll loop runs with the
default 600-second budget and, on success, the response carries the
local URL /videos/(filename).  The video_filename returned by the loop
is never empty, so the "No video file found" guard is dead. -/
def generate_video (cfg : AppConfig) (ce : CreateEnv) (env : UpstreamEnv)
    (fuel : Nat) (fs : FS) (r : VideoRequest) : List GVEvent × GenOutcome × FS :=
  if ¬ keyConfigured cfg then
    ([], GenOutcome.err 500 "OPENAI_API_KEY not configured. Please set it in .env file", fs)
  else
    let payload := buildPayload r
    if ¬ (ce.code = 200 ∨ ce.code = 201) then
      ([GVEvent.create payload],
        GenOutcome.err ce.code ("Failed to create video: " ++ errDetailOfCreate ce), fs)
    else
      match ce.respId with
      | none => ([GVEvent.create payload], GenOutcome.err 500 "No video ID returned", fs)
      | some vid =>
        if vid = "" then
          ([GVEvent.create payload], GenOutcome.err 500 "No video ID returned", fs)
        else
          let run := wait_for_video_completion env vid 600 fuel fs 0 0
          let evs := GVEvent.create payload :: run.events.map GVEvent.upstream
          match run.outcome with
          | WaitOutcome.ok fname =>
            if fname = "" then
              (evs, GenOutcome.err 500 "No video file found.", run.fs)
            else
              (evs, GenOutcome.ok ⟨"/videos/" ++ fname, "success",
                "Video generated successfully"⟩, run.fs)
          | WaitOutcome.err c d => (evs, GenOutcome.err c d, run.fs)
          | WaitOutcome.fuelOut => (evs, GenOutcome.fuelOut, run.fs)

/-- An empty model filesystem. -/
def fsEmpty : FS := ⟨fun _ => none, fun _ => false⟩

/-- A filesystem holding only the working directory and the videos
directory, as created at startup by VIDEOS_DIR.mkdir. -/
def fsVideosDir : FS := ⟨fun _ => none, fun p => p == [] || p == ["videos"]⟩

/-- A filesystem with the videos directory and one generated file. -/
def fsOneVideo : FS :=
  ⟨fun q => if q = ["videos", "video_1.mp4"] then some [7, 7, 7] else none,
   fun p => p == [] || p == ["videos"]⟩

/-- An upstream whose job stays queued forever, answering instantly. -/
def envQueued : UpstreamEnv :=
  ⟨fun _ => 200, fun _ => "queued", fun _ => none, fun _ => "", fun _ => 0, 200, "", []⟩

/-- An upstream whose job fails at the first poll with message "boom". -/
def envFailed : UpstreamEnv :=
  ⟨fun _ => 200, fun _ => "failed", fun _ => some "boom", fun _ => "", fun _ => 0, 200, "", []⟩

/-- An upstream whose job is queued at the first poll and completed at the
second, with three content chunks (one empty). -/
def envQueuedDone : UpstreamEnv :=
  ⟨fun _ => 200, fun n => if n = 0 then "queued" else "completed", fun _ => none,
   fun _ => "", fun _ => 0, 200, "", [[1, 2], [], [3, 4, 5]]⟩

/-- An upstream whose job is already completed at the first poll. -/
def envDone : UpstreamEnv :=
  ⟨fun _ => 200, fun _ => "completed", fun _ => none, fun _ => "", fun _ => 0,
   200, "", [[1, 2], [], [3, 4, 5]]⟩

/-- C5: for a supported size and a supported duration (4, 8 or 12), the
payload is exactly model, prompt, size and the duration as a string
under the key "seconds". -/
theorem C5_payload_supported (r : VideoRequest)
    (hs : r.size ∈ supportedSizes) (hd : r.duration ∈ supportedDurations) :
    buildPayload r =
      [("model", r.model), ("prompt", r.prompt), ("size", r.size),
       ("seconds", toString r.duration)] := by
  have hne : r.duration ≠ 0 := by
    simp only [supportedDurations, List.mem_cons, List.not_mem_nil, or_false] at hd
    rcases hd with h | h | h <;> simp [h]
  simp [buildPayload, hne]

/-- Witness for C5 at a concrete request. -/
theorem C5_payload_supported_witness :
    buildPayload ⟨"a cat", "sora-2", "720x1280", 8⟩ =
      [("model", "sora-2"), ("prompt", "a cat"), ("size", "720x1280"),
       ("seconds", "8")] :=
  C5_payload_supported ⟨"a cat", "sora-2", "720x1280", 8⟩ (by decide) (by decide)

/-- C10: the key "seconds" is omitted from the payload exactly when the
duration is 0 (the only falsy int); for a nonzero duration it is the
fourth and last key. -/
theorem C10_seconds_omitted_iff_zero (r : VideoRequest) :
    (buildPayload r).map Prod.fst =
      if r.duration = 0 then ["model", "prompt", "size"]
      else ["model", "prompt", "size", "seconds"] := by
  by_cases h : r.duration = 0 <;> simp [buildPayload, h]

/-- C7: with the API key unset (or empty), generate_video fails with 500
and the configuration message, and no network event is issued. -/
theorem C7_missing_key_no_network (cfg : AppConfig) (ce : CreateEnv) (env : UpstreamEnv)
    (fuel : Nat) (fs : FS) (r : VideoRequest) (h : keyConfigured cfg = false) :
    generate_video cfg ce env fuel fs r =
      ([], GenOutcome.err 500 "OPENAI_API_KEY not configured. Please set it in .env file", fs) := by
  simp [generate_video, h]

/-- Witness for C7 with an absent key. -/
theorem C7_missing_key_no_network_witness :
    generate_video ⟨none⟩ ⟨200, "", none, some "vid_1"⟩
      { codeAt := fun _ => 200, statusAt := fun _ => "queued", errMsgAt := fun _ => none,
        textAt := fun _ => "", latencyAt := fun _ => 0, contentCode := 200,
        contentText := "", chunks := [] } 10
      ⟨fun _ => none, fun _ => false⟩ ⟨"a cat", "sora-2", "720x1280", 8⟩ =
      ([], GenOutcome.err 500 "OPENAI_API_KEY not configured. Please set it in .env file",
        ⟨fun _ => none, fun _ => false⟩) :=
  C7_missing_key_no_network ⟨none⟩ ⟨200, "", none, some "vid_1"⟩
    { codeAt := fun _ => 200, statusAt := fun _ => "queued", errMsgAt := fun _ => none,
      textAt := fun _ => "", latencyAt := fun _ => 0, contentCode := 200,
      contentText := "", chunks := [] } 10
    ⟨fun _ => none, fun _ => false⟩ ⟨"a cat", "sora-2", "720x1280", 8⟩ rfl

/-- C9: the 404 of serve_video is equivalent to non-existence of the
joined path, with no regular-file or containment check; the components
"." and ".." resolve to the videos directory itself and to the working
directory, so such names reach the existence check as directories. -/
theorem C9_serve_404_iff_path_missing (fs : FS) (fname : String) :
    ((serve_video fs fname = ServeResult.notFound) ↔
      pathExists fs (resolvePath ["videos", fname]) = false) ∧
    resolvePath ["videos", "."] = ["videos"] ∧
    resolvePath ["videos", ".."] = [] := by
  refine ⟨?_, by decide, by decide⟩
  cases hE : pathExists fs (resolvePath ["videos", fname]) with
  | false => simp [serve_video, hE]
  | true =>
    cases hf : fs.files (resolvePath ["videos", fname]) <;>
      simp [serve_video, hE, hf]

/-- C8 counterexample: with the videos directory present (it always is,
being created at startup) the filename "." does not name any file in the
videos directory, yet serve_video does not return 404: the existence
check passes on the directory itself and the FileResponse fails at send
time as a server error. -/
theorem C8_counterexample_dot :
    fsVideosDir.files ["videos", "."] = none ∧
    fsVideosDir.files (resolvePath ["videos", "."]) = none ∧
    serve_video fsVideosDir "." ≠ ServeResult.notFound ∧
    serve_video fsVideosDir "." = ServeResult.respError := by
  refine ⟨rfl, rfl, ?_, ?_⟩ <;> decide

/-- C8 amended: a filename whose joined path does not exist yields 404; a
filename whose resolved path is an existing regular file yields its
bytes with media type video/mp4; but a filename whose resolved path
exists without being a regular file (such as "." or "..") escapes the
not-found check and yields a server error instead of a 404. -/
theorem C8_serve_amended (fs : FS) (fname : String) :
    (pathExists fs (resolvePath ["videos", fname]) = false →
      serve_video fs fname = ServeResult.notFound) ∧
    (∀ b, fs.files (resolvePath ["videos", fname]) = some b →
      serve_video fs fname = ServeResult.fileResp b "video/mp4") ∧
    (pathExists fs (resolvePath ["videos", fname]) = true →
      fs.files (resolvePath ["videos", fname]) = none →
      serve_video fs fname = ServeResult.respError) := by
  refine ⟨fun hE => by simp [serve_video, hE], fun b hb => ?_, fun hE hn => ?_⟩
  · have hE : pathExists fs (resolvePath ["videos", fname]) = true := by
      simp [pathExists, hb]
    simp [serve_video, hE, hb]
  · simp [serve_video, hE, hn]

/-- Witness for C8: the amended statement at a stored file and at a missing
file. -/
theorem C8_serve_amended_witness :
    serve_video fsOneVideo "video_1.mp4" =
      ServeResult.fileResp [7, 7, 7] "video/mp4" ∧
    serve_video fsOneVideo "video_2.mp4" = ServeResult.notFound :=
  ⟨(C8_serve_amended fsOneVideo "video_1.mp4").2.1 [7, 7, 7] (by decide),
   (C8_serve_amended fsOneVideo "video_2.mp4").1 (by decide)⟩

/-- Unfolding: once the elapsed time has reached the budget, the loop
raises the 408 timeout whatever the fuel. -/
lemma wfc_beyond_budget (env : UpstreamEnv) (vid : String) (mw : ℚ) (fuel : Nat)
    (fs : FS) (t : ℚ) (n : Nat) (h : ¬ t < mw) :
    wait_for_video_completion env vid mw fuel fs t n =
      ⟨[], WaitOutcome.err 408 "Video generation timeout", fs, t⟩ := by
  cases fuel <;> simp [wait_for_video_completion, h]

/-- Unfolding: a pending iteration (HTTP 200, status neither completed nor
failed) polls, sleeps min(5, 1 + elapsed/30) and recurses. -/
lemma wfc_pending_eq (env : UpstreamEnv) (vid : String) (mw : ℚ) (fuel : Nat)
    (fs : FS) (t : ℚ) (n : Nat) (ht : t < mw) (hc : env.codeAt n = 200)
    (hnc : env.statusAt n ≠ "completed") (hnf : env.statusAt n ≠ "failed") :
    wait_for_video_completion env vid mw (fuel + 1) fs t n =
      recordIter n (t + env.latencyAt n)
        (min 5 (1 + (t + env.latencyAt n) / 30))
        (wait_for_video_completion env vid mw fuel fs
          (t + env.latencyAt n + min 5 (1 + (t + env.latencyAt n) / 30)) (n + 1)) := by
  simp only [wait_for_video_completion]
  rw [if_pos ht, if_neg (by simp [hc]), if_neg hnc, if_neg hnf]

/-- Unfolding: a poll seeing status completed with a 200 content download
writes the chunks to the videos directory and returns. -/
lemma wfc_completed_eq (env : UpstreamEnv) (vid : String) (mw : ℚ) (fuel : Nat)
    (fs : FS) (t : ℚ) (n : Nat) (ht : t < mw) (hc : env.codeAt n = 200)
    (hs : env.statusAt n = "completed") (hcc : env.contentCode = 200) :
    wait_for_video_completion env vid mw (fuel + 1) fs t n =
      ⟨[TraceEv.poll n, TraceEv.download], WaitOutcome.ok (vid ++ ".mp4"),
        writeFS fs ["videos", vid ++ ".mp4"] (writeChunks env.chunks).1,
        t + env.latencyAt n⟩ := by
  simp only [wait_for_video_completion]
  rw [if_pos ht, if_neg (by simp [hc]), if_pos hs, if_pos hcc]

/-- Unfolding: a poll seeing status failed raises 500 with the upstream
message without touching the content endpoint. -/
lemma wfc_failed_eq (env : UpstreamEnv) (vid : String) (mw : ℚ) (fuel : Nat)
    (fs : FS) (t : ℚ) (n : Nat) (ht : t < mw) (hc : env.codeAt n = 200)
    (hnc : env.statusAt n ≠ "completed") (hf : env.statusAt n = "failed") :
    wait_for_video_completion env vid mw (fuel + 1) fs t n =
      ⟨[TraceEv.poll n], WaitOutcome.err 500
        ("Video generation failed: " ++ (env.errMsgAt n).getD "Unknown error"), fs,
        t + env.latencyAt n⟩ := by
  simp only [wait_for_video_completion]
  rw [if_pos ht, if_neg (by simp [hc]), if_neg hnc, if_pos hf]

/-- C1: every sleep of the poll loop, issued at elapsed time s, has
duration exactly min(5, 1 + s/30): the schedule is linear in the elapsed
time and capped at 5 seconds, not exponential. -/
theorem C1_sleep_linear_capped (env : UpstreamEnv) (vid : String) (mw : ℚ) :
    ∀ (fuel : Nat) (fs : FS) (t : ℚ) (n : Nat) (s d : ℚ),
      TraceEv.sleep s d ∈ (wait_for_video_completion env vid mw fuel fs t n).events →
      d = min 5 (1 + s / 30) := by
  intro fuel
  induction fuel with
  | zero =>
    intro fs t n s d h
    by_cases hlt : t < mw <;> simp [wait_for_video_completion, hlt] at h
  | succ fuel ih =>
    intro fs t n s d h
    by_cases hlt : t < mw
    · simp only [wait_for_video_completion, if_pos hlt] at h
      by_cases hc : env.codeAt n ≠ 200
      · rw [if_pos hc] at h; simp at h
      · rw [if_neg hc] at h
        by_cases hcm : env.statusAt n = "completed"
        · rw [if_pos hcm] at h
          by_cases hcc : env.contentCode = 200
          · rw [if_pos hcc] at h; simp at h
          · rw [if_neg hcc] at h; simp at h
        · rw [if_neg hcm] at h
          by_cases hf : env.statusAt n = "failed"
          · rw [if_pos hf] at h; simp at h
          · rw [if_neg hf] at h
            simp only [recordIter, List.mem_cons] at h
            rcases h with h | h | h
            · exact absurd h (by simp)
            · obtain ⟨hs, hd⟩ : s = t + env.latencyAt n ∧
                  d = min 5 (1 + (t + env.latencyAt n) / 30) := by
                simpa [TraceEv.sleep.injEq] using h
              rw [hd, hs]
            · exact ih fs _ _ s d h
    · rw [wfc_beyond_budget env vid mw _ fs t n hlt] at h
      simp at h

/-- Witness for C1: a run of two pending polls; its first sleep, issued at
elapsed time 0, lasts exactly min(5, 1 + 0/30) = 1 second. -/
theorem C1_sleep_linear_capped_witness :
    TraceEv.sleep 0 1 ∈
      (wait_for_video_completion envQueued "v" 2 3 fsEmpty 0 0).events ∧
    (1 : ℚ) = min 5 (1 + 0 / 30) := by
  have hm : TraceEv.sleep 0 1 ∈
      (wait_for_video_completion envQueued "v" 2 3 fsEmpty 0 0).events := by
    rw [wfc_pending_eq envQueued "v" 2 2 fsEmpty 0 0 (by norm_num) rfl
      (by decide) (by decide)]
    norm_num [recordIter, envQueued, min_def]
  exact ⟨hm, C1_sleep_linear_capped envQueued "v" 2 3 fsEmpty 0 0 0 1 hm⟩

/-- C3: if some poll of a run was issued and returned HTTP 200 with status
failed and error message M, the run fails with 500 and the detail
carrying M, and the content-download request is never issued. -/
theorem C3_failed_reports_message_no_download (env : UpstreamEnv) (vid : String)
    (mw : ℚ) (k : Nat) (M : String) (hk : env.codeAt k = 200)
    (hst : env.statusAt k = "failed") (hmsg : env.errMsgAt k = some M) :
    ∀ (fuel : Nat) (fs : FS) (t : ℚ) (n : Nat),
      TraceEv.poll k ∈ (wait_for_video_completion env vid mw fuel fs t n).events →
      (wait_for_video_completion env vid mw fuel fs t n).outcome =
          WaitOutcome.err 500 ("Video generation failed: " ++ M) ∧
        TraceEv.download ∉ (wait_for_video_completion env vid mw fuel fs t n).events := by
  intro fuel
  induction fuel with
  | zero =>
    intro fs t n h
    by_cases hlt : t < mw <;> simp [wait_for_video_completion, hlt] at h
  | succ fuel ih =>
    intro fs t n h
    by_cases hlt : t < mw
    · simp only [wait_for_video_completion, if_pos hlt] at h ⊢
      by_cases hc : env.codeAt n ≠ 200
      · rw [if_pos hc] at h
        simp only [List.mem_singleton, TraceEv.poll.injEq] at h
        subst h
        exact absurd hk hc
      · rw [if_neg hc] at h ⊢
        by_cases hcm : env.statusAt n = "completed"
        · rw [if_pos hcm] at h
          by_cases hcc : env.contentCode = 200

          · rw [if_pos hcc] at h
            simp only [List.mem_cons, List.mem_singleton] at h
            rcases h with h | h
            · obtain rfl : k = n := by simpa using h
              rw [hst] at hcm
              exact absurd hcm (by decide)
            · exact absurd h (by simp)
          · rw [if_neg hcc] at h
            simp only [List.mem_cons, List.mem_singleton] at h
            rcases h with h | h
            · obtain rfl : k = n := by simpa using h
              rw [hst] at hcm
              exact absurd hcm (by decide)
            · exact absurd h (by simp)
        · rw [if_neg hcm] at h ⊢
          by_cases hf : env.statusAt n = "failed"
          · rw [if_pos hf] at h ⊢
            simp only [List.mem_singleton, TraceEv.poll.injEq] at h
            subst h
            rw [hmsg]
            exact ⟨rfl, by simp⟩
          · rw [if_neg hf] at h ⊢
            simp only [recordIter, List.mem_cons] at h
            rcases h with h | h | h
            · obtain rfl : k = n := by simpa using h
              exact absurd hst hf
            · exact absurd h (by simp)
            · obtain ⟨h1, h2⟩ := ih fs _ _ h
              refine ⟨by simpa [recordIter] using h1, ?_⟩
              simp only [recordIter, List.mem_cons]
              push_neg
              exact ⟨by simp, by simp, h2⟩
    · rw [wfc_beyond_budget env vid mw _ fs t n hlt] at h
      simp at h

/-- Witness for C3: a job failing at the first poll with message "boom". -/
theorem C3_failed_reports_message_no_download_witness :
    (wait_for_video_completion envFailed "v" 600 5 fsEmpty 0 0).outcome =
        WaitOutcome.err 500 ("Video generation failed: " ++ "boom") ∧
      TraceEv.download ∉
        (wait_for_video_completion envFailed "v" 600 5 fsEmpty 0 0).events := by
  have hm : TraceEv.poll 0 ∈
      (wait_for_video_completion envFailed "v" 600 5 fsEmpty 0 0).events := by
    rw [wfc_failed_eq envFailed "v" 600 4 fsEmpty 0 0 (by norm_num) rfl
      (by decide) rfl]
    simp
  exact C3_failed_reports_message_no_download envFailed "v" 600 0 "boom" rfl rfl rfl
    5 fsEmpty 0 0 hm

/-- C4: a job queued at the first poll and completed at the second, with
instant polls and a budget beyond one second, yields exactly the trace
poll, sleep, poll, download: at least one poll happens, and after the
poll that observes completed the download follows with no further
status poll.  The run succeeds with the downloaded filename. -/
theorem C4_queued_completed_trace (env : UpstreamEnv) (vid : String) (mw : ℚ)
    (fuel : Nat) (fs : FS) (hc0 : env.codeAt 0 = 200) (hc1 : env.codeAt 1 = 200)
    (hs0 : env.statusAt 0 = "queued") (hs1 : env.statusAt 1 = "completed")
    (hl0 : env.latencyAt 0 = 0) (hl1 : env.latencyAt 1 = 0)
    (hcc : env.contentCode = 200) (hmw : 1 < mw) :
    (wait_for_video_completion env vid mw (fuel + 2) fs 0 0).events =
        [TraceEv.poll 0, TraceEv.sleep 0 1, TraceEv.poll 1, TraceEv.download] ∧
      (wait_for_video_completion env vid mw (fuel + 2) fs 0 0).outcome =
        WaitOutcome.ok (vid ++ ".mp4") := by
  have h0mw : (0 : ℚ) < mw := lt_trans one_pos hmw
  have hmin : min (5 : ℚ) (1 + (0 + env.latencyAt 0) / 30) = 1 := by
    rw [hl0]; norm_num
  rw [wfc_pending_eq env vid mw (fuel + 1) fs 0 0 h0mw hc0
    (by rw [hs0]; decide) (by rw [hs0]; decide)]
  rw [hmin, hl0]
  norm_num
  rw [wfc_completed_eq env vid mw fuel fs 1 1 hmw hc1 hs1 hcc]
  simp [recordIter]

/-- Witness for C4 at a concrete upstream. -/
theorem C4_queued_completed_trace_witness :
    (wait_for_video_completion envQueuedDone "vid" 600 2 fsEmpty 0 0).events =
        [TraceEv.poll 0, TraceEv.sleep 0 1, TraceEv.poll 1, TraceEv.download] ∧
      (wait_for_video_completion envQueuedDone "vid" 600 2 fsEmpty 0 0).outcome =
        WaitOutcome.ok ("vid" ++ ".mp4") :=
  C4_queued_completed_trace envQueuedDone "vid" 600 0 fsEmpty rfl rfl rfl rfl rfl rfl
    rfl (by norm_num)

/-- On a job that never turns terminal, with polls answering 200 in at most
L seconds each, the loop with enough fuel raises the 408 timeout at an
elapsed time in [max_wait, max_wait + L + 5). -/
lemma wfc_pending_runs_out (env : UpstreamEnv) (vid : String) (mw L : ℚ)
    (h200 : ∀ i, env.codeAt i = 200)
    (hnc : ∀ i, env.statusAt i ≠ "completed")
    (hnf : ∀ i, env.statusAt i ≠ "failed")
    (hlat0 : ∀ i, 0 ≤ env.latencyAt i) (hlatL : ∀ i, env.latencyAt i ≤ L) :
    ∀ (fuel : Nat) (fs : FS) (t : ℚ) (n : Nat), 0 ≤ t → t < mw →
      mw ≤ t + (fuel : ℚ) →
      (wait_for_video_completion env vid mw fuel fs t n).outcome =
          WaitOutcome.err 408 "Video generation timeout" ∧
        mw ≤ (wait_for_video_completion env vid mw fuel fs t n).elapsed ∧
        (wait_for_video_completion env vid mw fuel fs t n).elapsed < mw + L + 5 := by
  intro fuel
  induction fuel with
  | zero =>
    intro fs t n ht0 htmw hbud
    push_cast at hbud
    linarith
  | succ fuel ih =>
    intro fs t n ht0 htmw hbud
    rw [wfc_pending_eq env vid mw fuel fs t n htmw (h200 n) (hnc n) (hnf n)]
    have hlt : 0 ≤ env.latencyAt n := hlat0 n
    have hltL : env.latencyAt n ≤ L := hlatL n
    have hd1 : (1 : ℚ) ≤ min 5 (1 + (t + env.latencyAt n) / 30) := by
      refine le_min (by norm_num) ?_
      have : (0 : ℚ) ≤ (t + env.latencyAt n) / 30 := by positivity
      linarith
    have hd5 : min (5 : ℚ) (1 + (t + env.latencyAt n) / 30) ≤ 5 := min_le_left _ _
    set tn : ℚ := t + env.latencyAt n + min 5 (1 + (t + env.latencyAt n) / 30) with htn
    by_cases hnext : tn < mw
    · have := ih fs tn (n + 1) (by rw [htn]; linarith) hnext
        (by push_cast at hbud ⊢; rw [htn]; linarith)
      simpa [recordIter] using this
    · rw [wfc_beyond_budget env vid mw fuel fs tn (n + 1) hnext]
      refine ⟨rfl, ?_, ?_⟩ <;> simp only [recordIter]
      · exact le_of_not_lt hnext
      · rw [htn]; linarith

/-- C2: a job that never reaches a terminal status within the budget makes
the loop fail with a 408 timeout, and the failure comes neither before
the budget has elapsed nor more than one poll latency plus the capped
5-second sleep after it. -/
theorem C2_timeout_at_budget (env : UpstreamEnv) (vid : String) (mw L : ℚ)
    (fuel : Nat) (fs : FS)
    (h200 : ∀ i, env.codeAt i = 200)
    (hnc : ∀ i, env.statusAt i ≠ "completed")
    (hnf : ∀ i, env.statusAt i ≠ "failed")
    (hlat0 : ∀ i, 0 ≤ env.latencyAt i) (hlatL : ∀ i, env.latencyAt i ≤ L)
    (hmw : 0 < mw) (hfuel : mw ≤ (fuel : ℚ)) :
    (wait_for_video_completion env vid mw fuel fs 0 0).outcome =
        WaitOutcome.err 408 "Video generation timeout" ∧
      mw ≤ (wait_for_video_completion env vid mw fuel fs 0 0).elapsed ∧
      (wait_for_video_completion env vid mw fuel fs 0 0).elapsed < mw + L + 5 :=
  wfc_pending_runs_out env vid mw L h200 hnc hnf hlat0 hlatL fuel fs 0 0 le_rfl hmw
    (by simpa using hfuel)

/-- Witness for C2: the default 600-second budget with instant polls; the
timeout arrives at an elapsed time in [600, 605). -/
theorem C2_timeout_at_budget_witness :
    (wait_for_video_completion envQueued "v" 600 601 fsEmpty 0 0).outcome =
        WaitOutcome.err 408 "Video generation timeout" ∧
      (600 : ℚ) ≤ (wait_for_video_completion envQueued "v" 600 601 fsEmpty 0 0).elapsed ∧
      (wait_for_video_completion envQueued "v" 600 601 fsEmpty 0 0).elapsed < 600 + 0 + 5 :=
  C2_timeout_at_budget envQueued "v" 600 0 601 fsEmpty (fun _ => rfl)
    (fun _ => by change "queued" ≠ "completed"; decide)
    (fun _ => by change "queued" ≠ "failed"; decide)
    (fun _ => le_rfl) (fun _ => le_rfl) (by norm_num) (by norm_num)

/-- The chunk fold grows the file by exactly the summed chunk lengths, the
total_bytes counter in step: empty chunks are skipped but add nothing. -/
lemma chunkStep_foldl (l : List (List Nat)) :
    ∀ acc : List Nat × Nat,
      (l.foldl chunkStep acc).1.length = acc.1.length + (l.map List.length).sum ∧
      (l.foldl chunkStep acc).2 = acc.2 + (l.map List.length).sum := by
  induction l with
  | nil => intro acc; simp
  | cons c l ih =>
    intro acc
    obtain ⟨ih1, ih2⟩ := ih (chunkStep acc c)
    by_cases hc : c = []
    · subst hc
      simp only [List.foldl_cons, List.map_cons, List.length_nil, List.sum_cons]
      constructor
      · rw [ih1]; simp [chunkStep]
      · rw [ih2]; simp [chunkStep]
    · simp only [List.foldl_cons, List.map_cons, List.sum_cons]
      constructor
      · rw [ih1]; simp [chunkStep, hc]; omega
      · rw [ih2]; simp [chunkStep, hc]; omega

/-- The downloaded file holds exactly the concatenated non-empty chunks,
whose byte count is the sum of all chunk sizes, as is total_bytes. -/
lemma writeChunks_length (chunks : List (List Nat)) :
    (writeChunks chunks).1.length = (chunks.map List.length).sum ∧
    (writeChunks chunks).2 = (chunks.map List.length).sum := by
  have := chunkStep_foldl chunks ([], 0)
  simpa [writeChunks] using this

/-- A name ending in ".mp4" is a plain component: resolution keeps it. -/
lemma resolvePath_videos_mp4 (vid : String) :
    resolvePath ["videos", vid ++ ".mp4"] = ["videos", vid ++ ".mp4"] := by
  have h4 : (".mp4" : String).length = 4 := rfl
  have hlen : (vid ++ ".mp4").length = vid.length + 4 := by
    rw [String.length_append, h4]
  have h1 : vid ++ ".mp4" ≠ "." := by
    intro h
    rw [h] at hlen
    have hd : ("." : String).length = 1 := rfl
    omega
  have h2 : vid ++ ".mp4" ≠ "" := by
    intro h
    rw [h] at hlen
    have he : ("" : String).length = 0 := rfl
    omega
  have h3 : vid ++ ".mp4" ≠ ".." := by
    intro h
    rw [h] at hlen
    have hdd : (".." : String).length = 2 := rfl
    omega
  simp [resolvePath, resolveComp, h1, h2, h3]

/-- C6: every successful run of the poll loop wrote the file named
(video_id).mp4 in the videos directory; its content is the chunk
concatenation, whose byte count equals the sum of the sizes of all
streamed chunks (as does the total_bytes counter), and serving that
filename afterwards returns exactly those bytes as video/mp4. -/
theorem C6_download_bytes_and_serve (env : UpstreamEnv) (vid : String) (mw : ℚ) :
    ∀ (fuel : Nat) (fs : FS) (t : ℚ) (n : Nat) (fname : String),
      (wait_for_video_completion env vid mw fuel fs t n).outcome =
        WaitOutcome.ok fname →
      fname = vid ++ ".mp4" ∧
      (wait_for_video_completion env vid mw fuel fs t n).fs.files ["videos", fname] =
        some (writeChunks env.chunks).1 ∧
      (writeChunks env.chunks).1.length = (env.chunks.map List.length).sum ∧
      (writeChunks env.chunks).2 = (env.chunks.map List.length).sum ∧
      serve_video (wait_for_video_completion env vid mw fuel fs t n).fs fname =
        ServeResult.fileResp (writeChunks env.chunks).1 "video/mp4" := by
  intro fuel
  induction fuel with
  | zero =>
    intro fs t n fname h
    by_cases hlt : t < mw <;> simp [wait_for_video_completion, hlt] at h
  | succ fuel ih =>
    intro fs t n fname h
    by_cases hlt : t < mw
    · simp only [wait_for_video_completion, if_pos hlt] at h ⊢
      by_cases hc : env.codeAt n ≠ 200
      · rw [if_pos hc] at h; simp at h
      · rw [if_neg hc] at h ⊢
        by_cases hcm : env.statusAt n = "completed"
        · rw [if_pos hcm] at h ⊢
          by_cases hcc : env.contentCode = 200
          · rw [if_pos hcc] at h ⊢
            obtain rfl : vid ++ ".mp4" = fname := by simpa using h
            refine ⟨rfl, ?_, (writeChunks_length env.chunks).1,
              (writeChunks_length env.chunks).2, ?_⟩
            · simp [writeFS]
            · simp [serve_video, resolvePath_videos_mp4, pathExists, writeFS]
          · rw [if_neg hcc] at h; simp at h
        · rw [if_neg hcm] at h ⊢
          by_cases hf : env.statusAt n = "failed"
          · rw [if_pos hf] at h; simp at h
          · rw [if_neg hf] at h ⊢
            have := ih fs _ _ fname (by simpa [recordIter] using h)
            simpa [recordIter] using this
    · rw [wfc_beyond_budget env vid mw _ fs t n hlt] at h
      simp at h

/-- Witness for C6: one completed job with chunks of sizes 2, 0 and 3. -/
theorem C6_download_bytes_and_serve_witness :
    "vid" ++ ".mp4" = "vid" ++ ".mp4" ∧
    (wait_for_video_completion envDone "vid" 600 1 fsEmpty 0 0).fs.files
        ["videos", "vid" ++ ".mp4"] = some (writeChunks envDone.chunks).1 ∧
    (writeChunks envDone.chunks).1.length = (envDone.chunks.map List.length).sum ∧
    (writeChunks envDone.chunks).2 = (envDone.chunks.map List.length).sum ∧
    serve_video (wait_for_video_completion envDone "vid" 600 1 fsEmpty 0 0).fs
        ("vid" ++ ".mp4") =
      ServeResult.fileResp (writeChunks envDone.chunks).1 "video/mp4" := by
  have hok : (wait_for_video_completion envDone "vid" 600 1 fsEmpty 0 0).outcome =
      WaitOutcome.ok ("vid" ++ ".mp4") := by
    rw [wfc_completed_eq envDone "vid" 600 0 fsEmpty 0 0 (by norm_num) rfl rfl rfl]
  exact C6_download_bytes_and_serve envDone "vid" 600 1 fsEmpty 0 0
    ("vid" ++ ".mp4") hok
